import Mathlib

/-!
Shallow embedding of the `npns` terminal file manager core
(`src/fs_info/file_system_info.rs`, `src/fs_info/file_info.rs`,
`src/fs_info/file_ops.rs`, `src/app.rs`).

Modelling conventions:
* A Rust string is its character sequence, `Str := List Char`
  (byte order and codepoint order agree on UTF-8, and every claim about
  name ordering is stated at this level); string literals appear as
  `"...".data`.
* A filesystem path (`std::path::PathBuf`) is a list of components; the
  root `/` is `[]`, `join` is `++ [component]`, `parent` drops the last
  component (and is `none` at the root), `file_name` is `getLast?`.
* The external filesystem (`std::fs`) is a list of `FsEntry` records
  (path, directory flag, metadata byte length), threaded explicitly
  through every operation that touches the disk.
* Rust panics (`Option::unwrap` on `None`, slice indexing out of
  bounds) are modelled as `Option.none` results; `anyhow` errors that
  are returned (not panics) are modelled with `Except`.
* `Vec::sort_by` is a stable sort by a total preorder comparator; it is
  modelled with `List.insertionSort` (also stable) over the comparator's
  "less or equivalent" relation.
* Successful low-level filesystem calls are modelled as total updates of
  the filesystem value; I/O failures propagated with `?` are outside the
  model (claims concern the successful executions).
-/

namespace Npns

/-- A Rust string, as its character sequence. -/
abbrev Str := List Char

/-- Embeds `str::trim`: strip whitespace from both ends. -/
def strTrim (s : Str) : Str :=
  ((s.dropWhile Char.isWhitespace).reverse.dropWhile Char.isWhitespace).reverse

/-- Embeds `str::to_lowercase` (restricted to single-character lowerings). -/
def strToLower (s : Str) : Str :=
  s.map Char.toLower

/-- Embeds `str::starts_with('.')`. -/
def startsWithDot : Str → Bool
  | [] => false
  | c :: _ => c == '.'

/-- Embeds `str::contains` on a string pattern: `needle` occurs as a
contiguous subsequence of `hay`. -/
def subOccurs (needle : Str) : Str → Bool
  | [] => needle.isEmpty
  | c :: rest => needle.isPrefixOf (c :: rest) || subOccurs needle rest

/-- A filesystem path, as its list of components (root = `[]`). -/
abbrev Path := List Str

/-- Embeds `PathBuf::parent`: `None` at the root, otherwise drop the last component. -/
def parentPath (p : Path) : Option Path :=
  match p with
  | [] => none
  | _ :: _ => some p.dropLast

/-- One entry of the modelled external filesystem: absolute path,
directory flag, and metadata byte length (`Metadata::len`). -/
structure FsEntry where
  path : Path
  is_dir : Bool
  size : Nat
  deriving DecidableEq, Repr

/-- The modelled external filesystem (`std::fs`): a list of entries. -/
abbrev Fs := List FsEntry

/-- Embeds `Path::exists`. -/
def existsPath (w : Fs) (p : Path) : Bool :=
  w.any (fun e => e.path == p)

/-- Embeds `Path::is_dir`: the path exists and the entry found for it is a directory. -/
def isDirPath (w : Fs) (p : Path) : Bool :=
  match w.find? (fun e => e.path == p) with
  | some e => e.is_dir
  | none => false

/-- Embeds `std::fs::read_dir`: the immediate children of `dir`. -/
def readDirChildren (w : Fs) (dir : Path) : List FsEntry :=
  w.filter (fun e => e.path.dropLast == dir && e.path.length == dir.length + 1)

/-- Embeds `std::fs::remove_file`. -/
def remove_file (w : Fs) (p : Path) : Fs :=
  w.filter (fun e => e.path != p)

/-- Embeds `std::fs::remove_dir_all`: removes `p` and everything below it. -/
def remove_dir_all (w : Fs) (p : Path) : Fs :=
  w.filter (fun e => !(p.isPrefixOf e.path))

/-- Embeds `std::fs::copy src dst`: duplicate the bytes of `src` at `dst`
(the copy of a file is a file of the same length). -/
def copyFile (w : Fs) (src dst : Path) : Fs :=
  let sz := match w.find? (fun e => e.path == src) with
    | some e => e.size
    | none => 0
  FsEntry.mk dst false sz :: w

/-- Embeds `std::fs::rename src dst`: same-volume move of `src` (and, for a
directory, everything below it) to `dst`. -/
def renameFs (w : Fs) (src dst : Path) : Fs :=
  w.map (fun e =>
    if src.isPrefixOf e.path then
      { e with path := dst ++ e.path.drop src.length }
    else e)

/-- Embeds `FileInfo` (src/fs_info/file_info.rs). -/
structure FileInfo where
  name : Str
  path : Path
  size : Nat
  is_dir : Bool
  deriving DecidableEq, Repr

/-- Embeds `Operation` (src/fs_info/file_ops.rs). -/
inductive Operation where
  | Copy
  | Cut
  | Rename
  | New
  | CD
  deriving DecidableEq, Repr

/-- Embeds `OpsUnit` (src/fs_info/file_ops.rs). -/
structure OpsUnit where
  operation : Operation
  file_source : Path
  file_target : Path
  deriving DecidableEq, Repr

/-- Embeds `StatusFlag` (src/fs_info/file_system_info.rs). -/
inductive StatusFlag where
  | Ready
  | Error
  | Input
  | Others
  deriving DecidableEq, Repr

/-- Embeds `FileSys` (src/fs_info/file_system_info.rs).  The operation history
is a list whose head is the `VecDeque` front (most recent record). -/
structure FileSys where
  current_dir : Path
  files : List FileInfo
  selected_index : Option Nat
  status_info : Str
  status_flag : StatusFlag
  clipboard : Option (Path × Bool)
  ops_history : List OpsUnit
  deriving DecidableEq, Repr

/-- Embeds `MAX_HISTORY_SIZE`. -/
def MAX_HISTORY_SIZE : Nat := 64

/-- The "less or equivalent" relation of the `sort_by` comparator in
`FileSys::refresh`: when the directory flags differ the comparator
returns `a.is_dir.cmp(&b.is_dir).reverse()` (directories strictly
first), otherwise `a.name.cmp(&b.name)` (byte/codepoint order, here the
lexicographic order on `List Char`). -/
def fileLE (a b : FileInfo) : Prop :=
  (a.is_dir = b.is_dir ∧ a.name ≤ b.name) ∨ (a.is_dir = true ∧ b.is_dir = false)

instance : DecidableRel fileLE := fun a b =>
  inferInstanceAs (Decidable ((a.is_dir = b.is_dir ∧ a.name ≤ b.name) ∨
    (a.is_dir = true ∧ b.is_dir = false)))

/-- The entry list produced by `FileSys::refresh` for directory `dir`:
every child with a determinable file name becomes a `FileInfo` carrying
the metadata length (`metadata.len()`) and directory flag, and the list
is stably sorted by the comparator. -/
def refreshFiles (w : Fs) (dir : Path) : List FileInfo :=
  List.insertionSort fileLE
    ((readDirChildren w dir).filterMap (fun e =>
      (e.path.getLast?).map (fun n => FileInfo.mk n e.path e.size e.is_dir)))

/-- Embeds `FileSys::refresh` (successful run): rebuild `files` from the
filesystem, reset the selection, set the `Ready` status. -/
def FileSys.refresh (w : Fs) (s : FileSys) : FileSys :=
  { s with
    files := refreshFiles w s.current_dir,
    selected_index := none,
    status_info := "Ready".data,
    status_flag := StatusFlag.Ready }

/-- Embeds `FileSys::select_current`: the index is recorded unconditionally;
the status is updated only when the index is in range. -/
def select_current (s : FileSys) (current_index : Nat) : FileSys :=
  let s' := { s with selected_index := some current_index }
  match s.files.get? current_index with
  | some file =>
      { s' with status_info := "Selected: ".data ++ file.name,
                status_flag := StatusFlag.Others }
  | none => s'

/-- Embeds `FileSys::push_history`: evict the back when already at capacity,
then push at the front. -/
def push_history (target : List OpsUnit) (ops : OpsUnit) : List OpsUnit :=
  ops :: (if target.length = MAX_HISTORY_SIZE then target.dropLast else target)

/-- Embeds `FileSys::copy_selected`.  `none` models the panic of the
`unwrap` on the entry lookup at the selected index. -/
def copy_selected (s : FileSys) (is_copy : Bool) : Option FileSys :=
  match s.selected_index with
  | some selected_index =>
    match s.files.get? selected_index with
    | none => none
    | some file =>
      if !file.is_dir then
        some { s with
          clipboard := some (file.path, is_copy),
          status_info := (if is_copy then "Copied: ".data else "Cut: ".data) ++ file.name,
          status_flag := StatusFlag.Others }
      else
        some { s with status_info := "Operation Not Supported".data,
                      status_flag := StatusFlag.Error }
  | none =>
      some { s with status_info := "No File Selected".data,
                    status_flag := StatusFlag.Error }

/-- The target directory computed by `FileSys::paste` from the
selection: the selected entry's path when it is a directory, else the
current directory; `none` models the panic of the lookup `unwrap`. -/
def pasteTargetDir (s : FileSys) : Option Path :=
  match s.selected_index with
  | some index =>
      (s.files.get? index).map (fun f => if f.is_dir then f.path else s.current_dir)
  | none => some s.current_dir

/-- Embeds `FileSys::paste`.  Outer `none` models a panic; `Except.error`
models the returned `anyhow` error on an undeterminable file name. -/
def paste (w : Fs) (s : FileSys) : Option (Except Str (Fs × FileSys)) :=
  match s.clipboard with
  | none =>
      some (Except.ok (w, { s with status_info := "Clipboard is empty".data,
                                   status_flag := StatusFlag.Error }))
  | some (source, is_copy) =>
    if existsPath w source = false then
      some (Except.ok (w, { s with status_info := "Source file does not exist".data,
                                   status_flag := StatusFlag.Error,
                                   clipboard := none }))
    else
      match pasteTargetDir s with
      | none => none
      | some target_dir =>
        match source.getLast? with
        | none => some (Except.error "Invalid file name".data)
        | some file_name =>
          let target_path := target_dir ++ [file_name]
          if existsPath w target_path then
            some (Except.ok (w, { s with status_info := "File already exists".data,
                                         status_flag := StatusFlag.Error }))
          else
            let res :=
              if is_copy then
                (copyFile w source target_path,
                 OpsUnit.mk Operation.Copy source target_path)
              else
                (renameFs w source target_path,
                 OpsUnit.mk Operation.Cut source target_path)
            let s' := { s with ops_history := push_history s.ops_history res.2 }
            let s'' := FileSys.refresh res.1 s'
            some (Except.ok (res.1,
              { s'' with status_info := "Pasted: ".data ++ file_name,
                         status_flag := StatusFlag.Others }))

/-- Embeds `FileSys::delete_selected`.  `none` models the two panics: the
entry-lookup `unwrap` and the `file_name().unwrap()` used for the
status message. -/
def delete_selected (w : Fs) (s : FileSys) : Option (Fs × FileSys) :=
  match s.selected_index with
  | some index =>
    match s.files.get? index with
    | none => none
    | some f =>
      let source := f.path
      let w' := if isDirPath w source then remove_dir_all w source
                else remove_file w source
      let s' := FileSys.refresh w' s
      match source.getLast? with
      | none => none
      | some n =>
          some (w', { s' with status_info := "Deleted: ".data ++ n,
                              status_flag := StatusFlag.Others })
  | none =>
      some (w, { s with status_info := "No Selected".data,
                        status_flag := StatusFlag.Error })

/-- Embeds `validate_filename`, as the predicate "the name is valid" (the Rust
function returns `Err(())` exactly when this is `false`). -/
def validate_filename (name : Str) : Bool :=
  !(name.isEmpty || name.contains '/' || name.contains '\\' ||
    subOccurs "..".data name || name.contains (Char.ofNat 0))

/-- The target path computed by `FileSys::new_file`: inside the selected
entry when it is a directory, else inside the current directory; `none`
models the panic of the indexing `self.files[idx]`. -/
def new_file_target (s : FileSys) (name : Str) : Option Path :=
  match s.selected_index with
  | some idx =>
      (s.files.get? idx).map (fun sel =>
        if sel.is_dir then sel.path ++ [name] else s.current_dir ++ [name])
  | none => some (s.current_dir ++ [name])

/-- Embeds `FileSys::new_file`.  A created file or directory is a fresh entry
of length 0.  (The "File Created"/"Dir Created" status is overwritten by
the final `refresh`, exactly as in the source.) -/
def new_file (w : Fs) (s : FileSys) (name : Str) (is_dir : Bool) :
    Option (Fs × FileSys) :=
  if validate_filename name = false then
    some (w, { s with status_info := "Invalid Name".data,
                      status_flag := StatusFlag.Error })
  else
    match new_file_target s name with
    | none => none
    | some target_path =>
      if existsPath w target_path then
        some (w, { s with status_info := name ++ " Exists".data,
                          status_flag := StatusFlag.Error })
      else
        let w' := FsEntry.mk target_path is_dir 0 :: w
        let op := OpsUnit.mk Operation.New [] target_path
        let s' := { s with
          status_info :=
            (if is_dir then "Dir Created: ".data else "File Created: ".data) ++ name,
          ops_history := push_history s.ops_history op,
          status_flag := StatusFlag.Others }
        some (w', FileSys.refresh w' s')

/-- Embeds `FileSys::rename_selected`.  `none` models the entry-lookup panic. -/
def rename_selected (w : Fs) (s : FileSys) (new_name : Str) :
    Option (Fs × FileSys) :=
  if validate_filename new_name = false then
    some (w, { s with status_info := "Invalid Name".data,
                      status_flag := StatusFlag.Error })
  else
    match s.selected_index with
    | some idx =>
      match s.files.get? idx with
      | none => none
      | some f =>
        let source := f.path
        let target := s.current_dir ++ [new_name]
        if existsPath w target then
          some (w, { s with status_info := new_name ++ " Exists".data,
                            status_flag := StatusFlag.Error })
        else
          let op := OpsUnit.mk Operation.Rename source target
          let w' := renameFs w source target
          let s' := { s with ops_history := push_history s.ops_history op }
          let s'' := FileSys.refresh w' s'
          some (w', { s'' with status_info := "Renamed to: ".data ++ new_name,
                               status_flag := StatusFlag.Others })
    | none =>
        some (w, { s with status_info := "No Selection".data,
                          status_flag := StatusFlag.Error })

/-- Embeds `FileSys::parent_dir`.  Note that `self.selected_index = None` runs
after the `if let`/`else`, i.e. in both branches. -/
def parent_dir (w : Fs) (s : FileSys) : FileSys :=
  match parentPath s.current_dir with
  | some parent =>
    let op := OpsUnit.mk Operation.CD s.current_dir parent
    let s' := { s with ops_history := push_history s.ops_history op,
                       current_dir := parent }
    let s'' := FileSys.refresh w s'
    { s'' with selected_index := none }
  | none =>
    { s with status_info := "Root Dir".data,
             status_flag := StatusFlag.Error,
             selected_index := none }

/-- Shared tail of `FileSys::undo`: the final `refresh` followed by the
"Undone" status. -/
def finishUndo (w : Fs) (s : FileSys) : Fs × FileSys :=
  (w, { FileSys.refresh w s with status_info := "Undone".data,
                                 status_flag := StatusFlag.Others })

/-- Embeds `FileSys::undo`. -/
def undo (w : Fs) (s : FileSys) : Fs × FileSys :=
  match s.ops_history with
  | [] => (w, { s with status_info := "Nothing to undo".data,
                       status_flag := StatusFlag.Others })
  | last_op :: rest =>
    let s₀ := { s with ops_history := rest }
    match last_op.operation with
    | Operation.Copy =>
        finishUndo
          (if existsPath w last_op.file_target then
            remove_file w last_op.file_target
          else w) s₀
    | Operation.Cut =>
        finishUndo
          (if existsPath w last_op.file_target then
            renameFs w last_op.file_target last_op.file_source
          else w) s₀
    | Operation.Rename =>
        finishUndo
          (if existsPath w last_op.file_target then
            renameFs w last_op.file_target last_op.file_source
          else w) s₀
    | Operation.New =>
        finishUndo
          (if existsPath w last_op.file_target then
            (if isDirPath w last_op.file_target then
              remove_dir_all w last_op.file_target
            else remove_file w last_op.file_target)
          else w) s₀
    | Operation.CD =>
        finishUndo w (FileSys.refresh w { s₀ with current_dir := last_op.file_source })

/-- Embeds `InputContext` (src/app.rs). -/
inductive InputContext where
  | None
  | NewFile
  | NewDir
  | Rename
  | ConfirmDelete
  | Search
  deriving DecidableEq, Repr

/-- Embeds `App` (src/app.rs).  `table_state` is the ratatui cursor index
(`TableState::selected`). -/
structure App where
  fs : FileSys
  table_state : Option Nat
  input_context : InputContext
  input_buffer : Str
  show_hidden : Bool
  search_query : Str
  should_quit : Bool
  deriving DecidableEq, Repr

/-- Embeds `App::filtered_files`: the visible `(original_index, entry)` pairs
after the hidden-file and search filters. -/
def filtered_files (a : App) : List (Nat × FileInfo) :=
  a.fs.files.enum.filter (fun p =>
    (a.show_hidden || !(startsWithDot p.2.name)) &&
    (a.search_query.isEmpty ||
      subOccurs (strToLower a.search_query) (strToLower p.2.name)))

/-- Embeds `App::get_cursor_file_info`: `(original_index, is_dir)` of the entry
under the cursor, through the filtered view. -/
def get_cursor_file_info (a : App) : Option (Nat × Bool) :=
  (a.table_state.bind (fun index => (filtered_files a).get? index)).map
    (fun p => (p.1, p.2.is_dir))

/-- Embeds `App::exit_input_mode`: back to `Normal`, clear the buffer, restore
the `Ready` status. -/
def exit_input_mode (a : App) : App :=
  { a with input_context := InputContext.None,
           input_buffer := [],
           fs := { a.fs with status_info := "Ready".data,
                             status_flag := StatusFlag.Ready } }

/-- Embeds `App::clear_selection`. -/
def clear_selection (a : App) : App :=
  { a with fs := { a.fs with selected_index := none } }

/-- Embeds `App::reset_cursor`. -/
def reset_cursor (a : App) : App :=
  { a with table_state :=
      if (filtered_files a).isEmpty then none else some 0 }

/-- Embeds `App::submit_input`.  `none` models a panic propagated from the
engine; the `if let Err` capture of engine errors is dead in the model
because the modelled filesystem calls always succeed. -/
def submit_input (w : Fs) (a : App) : Option (Fs × App) :=
  let input := strTrim a.input_buffer
  if a.input_context = InputContext.Search then
    let a₁ := { a with search_query := input }
    some (w, exit_input_mode (clear_selection (reset_cursor a₁)))
  else if a.input_context = InputContext.ConfirmDelete then
    if input = "y".data ∨ input = "Y".data then
      (delete_selected w a.fs).map (fun p =>
        (p.1, exit_input_mode { a with fs := p.2 }))
    else if input = "n".data ∨ input = "N".data then
      some (w, exit_input_mode a)
    else
      some (w, a)
  else
    if input.isEmpty then
      some (w, exit_input_mode a)
    else
      match a.input_context with
      | InputContext.NewFile =>
          (new_file w a.fs input false).map (fun p =>
            (p.1, exit_input_mode { a with fs := p.2 }))
      | InputContext.NewDir =>
          (new_file w a.fs input true).map (fun p =>
            (p.1, exit_input_mode { a with fs := p.2 }))
      | InputContext.Rename =>
          (rename_selected w a.fs input).map (fun p =>
            (p.1, exit_input_mode { a with fs := p.2 }))
      | _ => some (w, exit_input_mode a)

/-- Embeds `App::start_delete_confirm`. -/
def start_delete_confirm (a : App) : App :=
  if a.fs.selected_index.isSome then
    { a with input_context := InputContext.ConfirmDelete }
  else
    exit_input_mode a

/-- Embeds `App::start_rename`: pre-fills the buffer with the cursor entry's
current name. -/
def start_rename (a : App) : App :=
  match get_cursor_file_info a with
  | some (original_index, _) =>
    match a.fs.files.get? original_index with
    | some file =>
        { a with fs := { a.fs with selected_index := some original_index },
                 input_buffer := file.name,
                 input_context := InputContext.Rename }
    | none => a
  | none => a

/-- Embeds `App::start_new_file`. -/
def start_new_file (a : App) : App :=
  { a with input_context := InputContext.NewFile, input_buffer := [] }

/-- Embeds `App::start_new_dir`. -/
def start_new_dir (a : App) : App :=
  { a with input_context := InputContext.NewDir, input_buffer := [] }

/-- Embeds `App::start_search`. -/
def start_search (a : App) : App :=
  reset_cursor { a with input_context := InputContext.Search, input_buffer := [] }

/-! Concrete states used by witnesses and counterexamples. -/

/-- A `FileSys` at the root with an empty listing (the state after
`init` on an empty root directory). -/
def baseFS : FileSys :=
  { current_dir := [], files := [], selected_index := none,
    status_info := "Ready".data, status_flag := StatusFlag.Ready,
    clipboard := none, ops_history := [] }

/-- A root state with a (stale) selection recorded. -/
def sSelRoot : FileSys :=
  { baseFS with selected_index := some 0 }

/-- A state whose selected entry has an empty path (no determinable
file name). -/
def sBadPath : FileSys :=
  { baseFS with files := [FileInfo.mk [] [] 0 false], selected_index := some 0 }

/-- A root state listing the single file `a.txt`, selected. -/
def sOneFile : FileSys :=
  { baseFS with files := [FileInfo.mk "a.txt".data ["a.txt".data] 0 false],
                selected_index := some 0 }

/-- A filesystem whose root holds one directory `d` of metadata length
4096 (the typical on-disk length `Metadata::len` reports for a
directory). -/
def wDirSize : Fs := [FsEntry.mk [['d']] true 4096]

/-- A filesystem whose root holds the single file `a` of length 3. -/
def wOneFile : Fs := [FsEntry.mk [['a']] false 3]

/-- A root state whose clipboard holds file `a` in copy mode. -/
def sClipA : FileSys :=
  { baseFS with clipboard := some ([['a']], true) }

/-- An `App` in `ConfirmDelete` whose buffer holds `x` (neither an
affirmative nor a negative answer). -/
def aCexApp : App :=
  { fs := baseFS, table_state := none,
    input_context := InputContext.ConfirmDelete, input_buffer := ['x'],
    show_hidden := false, search_query := [], should_quit := false }

/-- An `App` in `ConfirmDelete` whose buffer holds `n`. -/
def aNoApp : App :=
  { aCexApp with input_buffer := ['n'] }

/-- An `App` in `Normal` mode with the cursor on the file `a.txt`. -/
def aCursorApp : App :=
  { fs := { baseFS with files := [FileInfo.mk "a.txt".data ["a.txt".data] 0 false] },
    table_state := some 0, input_context := InputContext.None,
    input_buffer := [], show_hidden := false, search_query := [],
    should_quit := false }

/-- A dummy history record. -/
def opDummy : OpsUnit := OpsUnit.mk Operation.New [] []

/-- A history at full capacity. -/
def hist64 : List OpsUnit := List.replicate 64 opDummy

/-! Sortedness infrastructure for the `refresh` comparator. -/

instance : IsTotal FileInfo fileLE where
  total a b := by
    by_cases h : a.is_dir = b.is_dir
    · rcases le_total a.name b.name with hn | hn
      · exact Or.inl (Or.inl ⟨h, hn⟩)
      · exact Or.inr (Or.inl ⟨h.symm, hn⟩)
    · cases ha : a.is_dir <;> cases hb : b.is_dir
      · rw [ha, hb] at h; exact absurd rfl h
      · exact Or.inr (Or.inr ⟨hb, ha⟩)
      · exact Or.inl (Or.inr ⟨ha, hb⟩)
      · rw [ha, hb] at h; exact absurd rfl h

instance : IsTrans FileInfo fileLE where
  trans a b c hab hbc := by
    rcases hab with ⟨hd1, hn1⟩ | ⟨ha1, hb1⟩
    · rcases hbc with ⟨hd2, hn2⟩ | ⟨hb2, hc2⟩
      · exact Or.inl ⟨hd1.trans hd2, le_trans hn1 hn2⟩
      · exact Or.inr ⟨hd1.trans hb2, hc2⟩
    · rcases hbc with ⟨hd2, _⟩ | ⟨hb2, _⟩
      · exact Or.inr ⟨ha1, hd2 ▸ hb1⟩
      · exact absurd (hb1.symm.trans hb2) (by decide)

/-- Helper: the entry list built by `refresh` is sorted by the
comparator relation. -/
theorem refreshFiles_sorted (w : Fs) (dir : Path) :
    (refreshFiles w dir).Sorted fileLE :=
  List.sorted_insertionSort fileLE _

/-! Claim theorems. -/

/-- C2: after every successful refresh, the entry list is sorted with
all directories before all files — for any two positions `i < j`, if
the later entry is a directory so is the earlier, and entries in the
same group are in ascending codepoint order of name — and the selected
index is reset to absent.  (Initialization, navigation and every
successful mutating operation end in this `refresh`.) -/
theorem refresh_sorted_and_deselects (w : Fs) (s : FileSys) :
    ((FileSys.refresh w s).files).Pairwise
      (fun a b => (b.is_dir = true → a.is_dir = true) ∧
                  (a.is_dir = b.is_dir → a.name ≤ b.name)) ∧
    (FileSys.refresh w s).selected_index = none := by
  constructor
  · have h := refreshFiles_sorted w s.current_dir
    refine List.Pairwise.imp ?_ h
    intro a b hab
    rcases hab with ⟨hd, hn⟩ | ⟨ha, hb⟩
    · exact ⟨fun h2 => hd.trans h2, fun _ => hn⟩
    · refine ⟨fun _ => ha, fun h2 => ?_⟩
      exact absurd (hb.symm.trans (h2.symm.trans ha)) (by decide)
  · rfl

/-- C4: `push_history` keeps the history within the capacity of 64; a
push at exactly 64 evicts the oldest (last) record, keeps the remaining
63 in their relative order, and places the new record at the front. -/
theorem push_history_bounded (target : List OpsUnit) (ops : OpsUnit)
    (h : target.length ≤ MAX_HISTORY_SIZE) :
    (push_history target ops).length ≤ MAX_HISTORY_SIZE ∧
    (target.length = MAX_HISTORY_SIZE →
      push_history target ops = ops :: target.dropLast ∧
      target.dropLast.length = MAX_HISTORY_SIZE - 1) := by
  constructor
  · unfold push_history
    by_cases hc : target.length = MAX_HISTORY_SIZE
    · rw [if_pos hc]
      rw [List.length_cons, List.length_dropLast, hc]
      unfold MAX_HISTORY_SIZE
      omega
    · rw [if_neg hc]
      rw [List.length_cons]
      omega
  · intro hc
    unfold push_history
    rw [if_pos hc]
    exact ⟨rfl, by rw [List.length_dropLast, hc]⟩

/-- C4 witness: pushing onto a full 64-record history stays at 64 and
evicts the tail. -/
theorem push_history_bounded_witness :
    hist64.length ≤ MAX_HISTORY_SIZE ∧
    ((push_history hist64 opDummy).length ≤ MAX_HISTORY_SIZE ∧
      (hist64.length = MAX_HISTORY_SIZE →
        push_history hist64 opDummy = opDummy :: hist64.dropLast ∧
        hist64.dropLast.length = MAX_HISTORY_SIZE - 1)) :=
  ⟨by decide, push_history_bounded hist64 opDummy (by decide)⟩

/-- C1 counterexample: on the empty listing, `select_current 0` is not
a no-op — the out-of-range index 0 is still recorded as the selection. -/
theorem select_current_cex :
    baseFS.selected_index = none ∧ baseFS.files.length = 0 ∧
    (select_current baseFS 0).selected_index = some 0 := by decide

/-- C1 (amended): `select_current` records the index unconditionally,
in range or not; it never changes the listing, current directory,
clipboard or history, and when the index is out of range the status is
not updated either (the selection is the only change). -/
theorem select_current_spec (s : FileSys) (i : Nat) :
    (select_current s i).selected_index = some i ∧
    (select_current s i).files = s.files ∧
    (select_current s i).current_dir = s.current_dir ∧
    (select_current s i).clipboard = s.clipboard ∧
    (select_current s i).ops_history = s.ops_history ∧
    (s.files.length ≤ i → select_current s i = { s with selected_index := some i }) := by
  cases hg : s.files.get? i with
  | none =>
      unfold select_current
      rw [hg]
      exact ⟨rfl, rfl, rfl, rfl, rfl, fun _ => rfl⟩
  | some f =>
      unfold select_current
      rw [hg]
      refine ⟨rfl, rfl, rfl, rfl, rfl, fun hle => ?_⟩
      rw [List.get?_eq_none.mpr hle] at hg
      cases hg

/-- C1 witness: the amended statement evaluated on the empty listing at
the out-of-range index 0. -/
theorem select_current_spec_witness :
    (select_current baseFS 0).selected_index = some 0 ∧
    baseFS.files.length ≤ 0 ∧
    select_current baseFS 0 = { baseFS with selected_index := some 0 } :=
  ⟨(select_current_spec baseFS 0).1, by decide,
    (select_current_spec baseFS 0).2.2.2.2.2 (by decide)⟩

/-- C7 counterexample: at the root with a live selection, `parent_dir`
does not leave the selection unchanged — it clears it. -/
theorem parent_dir_cex :
    parentPath sSelRoot.current_dir = none ∧
    sSelRoot.selected_index = some 0 ∧
    (parent_dir [] sSelRoot).selected_index = none ∧
    (parent_dir [] sSelRoot).status_info = "Root Dir".data ∧
    (parent_dir [] sSelRoot).status_flag = StatusFlag.Error := by decide

/-- C7 (amended): when the current path has no parent, `parent_dir`
reports the non-fatal "Root Dir" error and leaves the current path,
entry list, clipboard and history unchanged — but the selection is
cleared (the trailing `self.selected_index = None` runs in both
branches). -/
theorem parent_dir_at_root (w : Fs) (s : FileSys)
    (h : parentPath s.current_dir = none) :
    parent_dir w s =
      { s with status_info := "Root Dir".data,
               status_flag := StatusFlag.Error,
               selected_index := none } := by
  unfold parent_dir
  rw [h]

/-- C7 witness: the amended statement evaluated at the root state. -/
theorem parent_dir_at_root_witness :
    parentPath sSelRoot.current_dir = none ∧
    parent_dir [] sSelRoot =
      { sSelRoot with status_info := "Root Dir".data,
                      status_flag := StatusFlag.Error,
                      selected_index := none } :=
  ⟨by decide, parent_dir_at_root [] sSelRoot (by decide)⟩

/-- C9 counterexample: `refresh` over a filesystem whose directory `d`
has metadata length 4096 produces an entry with the directory flag set
and size 4096, not 0 — the recorded size is `metadata.len()` for every
entry, directories included. -/
theorem refresh_dir_size_cex :
    ∃ e ∈ refreshFiles wDirSize [], e.is_dir = true ∧ e.size ≠ 0 := by decide

/-- C9 (amended): every entry produced by `refresh` carries the
filesystem-reported metadata byte length and directory flag of the
listed child — for directories as well as files, the recorded size is
`metadata.len()`, not 0. -/
theorem refresh_size_matches_fs (w : Fs) (dir : Path) (e : FileInfo)
    (he : e ∈ refreshFiles w dir) :
    ∃ fe, fe ∈ w ∧ fe.path = e.path ∧ e.size = fe.size ∧ e.is_dir = fe.is_dir := by
  unfold refreshFiles at he
  rw [List.mem_insertionSort] at he
  obtain ⟨fe, hfe, hmap⟩ := List.mem_filterMap.mp he
  obtain ⟨n, _, hmk⟩ := Option.map_eq_some'.mp hmap
  exact ⟨fe, List.mem_of_mem_filter hfe, by rw [← hmk], by rw [← hmk], by rw [← hmk]⟩

/-- C9 witness: the amended statement evaluated on the directory `d`
of metadata length 4096. -/
theorem refresh_size_matches_fs_witness :
    FileInfo.mk [['d']].head! [['d']] 4096 true ∈ refreshFiles wDirSize [] ∧
    ∃ fe, fe ∈ wDirSize ∧ fe.path = [['d']] ∧ (4096 : Nat) = fe.size ∧ true = fe.is_dir :=
  ⟨by decide, refresh_size_matches_fs wDirSize [] (FileInfo.mk ['d'] [['d']] 4096 true) (by decide)⟩

/-- C6: when the computed paste target path already exists, `paste`
leaves the filesystem untouched, pushes nothing to the history, keeps
the clipboard, selection and current directory as they were, and
reports the "File already exists" error status. -/
theorem paste_target_exists (w : Fs) (s : FileSys) (source : Path)
    (is_copy : Bool) (target_dir : Path) (n : Str)
    (hc : s.clipboard = some (source, is_copy))
    (hsrc : existsPath w source = true)
    (htd : pasteTargetDir s = some target_dir)
    (hn : source.getLast? = some n)
    (hex : existsPath w (target_dir ++ [n]) = true) :
    paste w s =
      some (Except.ok (w, { s with status_info := "File already exists".data,
                                   status_flag := StatusFlag.Error })) := by
  simp [paste, hc, hsrc, htd, hn, hex]

/-- C6 witness: pasting file `a` at the root while `a` is already
there. -/
theorem paste_target_exists_witness :
    sClipA.clipboard = some ([['a']], true) ∧
    existsPath wOneFile [['a']] = true ∧
    pasteTargetDir sClipA = some [] ∧
    ([['a']] : Path).getLast? = some ['a'] ∧
    existsPath wOneFile ([] ++ [['a']]) = true ∧
    paste wOneFile sClipA =
      some (Except.ok (wOneFile,
        { sClipA with status_info := "File already exists".data,
                      status_flag := StatusFlag.Error })) :=
  ⟨by decide, by decide, by decide, by decide, by decide,
    paste_target_exists wOneFile sClipA [['a']] true [] ['a']
      (by decide) (by decide) (by decide) (by decide) (by decide)⟩

/-- C10 counterexample: with a valid selected index (0 < 1) but a
selected entry whose path has no final component, `delete_selected`
still panics (the `file_name().unwrap()` for the status message), so
index validity alone does not make these operations panic-free. -/
theorem delete_selected_panic_cex :
    sBadPath.selected_index = some 0 ∧ 0 < sBadPath.files.length ∧
    delete_selected [] sBadPath = none := by decide

/-- Helper for C10: once the selection resolves to an entry, `paste`
never reaches the entry-lookup unwrap with `None`. -/
theorem paste_isSome_of_target_dir (w : Fs) (s : FileSys)
    (h : (pasteTargetDir s).isSome) : (paste w s).isSome := by
  cases hclip : s.clipboard with
  | none => simp [paste, hclip]
  | some p =>
    obtain ⟨src, cp⟩ := p
    obtain ⟨d, hd⟩ := Option.isSome_iff_exists.mp h
    by_cases hsrc : existsPath w src = false
    · simp [paste, hclip, hsrc]
    · rw [Bool.not_eq_false] at hsrc
      cases hlast : src.getLast? with
      | none => simp [paste, hclip, hsrc, hd, hlast]
      | some fn =>
        by_cases hex : existsPath w (d ++ [fn]) = true
        · simp [paste, hclip, hsrc, hd, hlast, hex]
        · simp [paste, hclip, hsrc, hd, hlast, hex]

/-- C10 (amended): for every engine state whose selected index is
strictly below the entry-list length, the entry-lookup unwraps of
`copy_selected`, `paste`, `delete_selected` and `rename_selected` are
unreachable; `copy_selected`, `paste` and `rename_selected` therefore
cannot panic, and `delete_selected` cannot panic provided additionally
the selected entry's path has a determinable file name (as every entry
produced by `refresh` does) — without that proviso its
`file_name().unwrap()` can still panic. -/
theorem selected_ops_no_panic (w : Fs) (s : FileSys) (i : Nat)
    (m : Bool) (nm : Str)
    (h : s.selected_index = some i) (hl : i < s.files.length) :
    (copy_selected s m).isSome ∧
    (paste w s).isSome ∧
    (rename_selected w s nm).isSome ∧
    (∀ f, s.files.get? i = some f → f.path ≠ [] →
      (delete_selected w s).isSome) := by
  have hg : s.files[i]? = some (s.files.get ⟨i, hl⟩) := by
    rw [List.getElem?_eq_getElem hl, List.get_eq_getElem]
  refine ⟨?_, ?_, ?_, ?_⟩
  · simp only [copy_selected, h]
    split
    · rename_i heq
      rw [List.get?_eq_getElem?, hg] at heq
      cases heq
    · split <;> rfl
  · apply paste_isSome_of_target_dir
    simp [pasteTargetDir, h, hg]
  · by_cases hv : validate_filename nm = false
    · simp [rename_selected, hv]
    · by_cases hex : existsPath w (s.current_dir ++ [nm]) = true
      · simp [rename_selected, hv, h, hg, hex]
      · simp [rename_selected, hv, h, hg, hex]
  · intro f hf hne
    have hf' : s.files[i]? = some f := by
      rw [← List.get?_eq_getElem?]; exact hf
    obtain ⟨n, hn⟩ := Option.isSome_iff_exists.mp (List.getLast?_isSome.mpr hne)
    simp [delete_selected, h, hf', hn]

/-- C10 witness: the amended statement evaluated on a one-file listing
with index 0 selected. -/
theorem selected_ops_no_panic_witness :
    sOneFile.selected_index = some 0 ∧ 0 < sOneFile.files.length ∧
    (copy_selected sOneFile true).isSome ∧
    (paste [] sOneFile).isSome ∧
    (rename_selected [] sOneFile ['z']).isSome ∧
    (delete_selected [] sOneFile).isSome :=
  ⟨by decide, by decide,
    (selected_ops_no_panic [] sOneFile 0 true ['z'] (by decide) (by decide)).1,
    (selected_ops_no_panic [] sOneFile 0 true ['z'] (by decide) (by decide)).2.1,
    (selected_ops_no_panic [] sOneFile 0 true ['z'] (by decide) (by decide)).2.2.1,
    (selected_ops_no_panic [] sOneFile 0 true ['z'] (by decide) (by decide)).2.2.2
      (FileInfo.mk "a.txt".data ["a.txt".data] 0 false) (by decide) (by decide)⟩

/-- Helper for C5: removing a path that does not exist leaves the
filesystem unchanged. -/
theorem remove_file_of_not_exists (w : Fs) (t : Path)
    (h : existsPath w t = false) : remove_file w t = w := by
  unfold remove_file
  apply List.filter_eq_self.mpr
  intro e he
  unfold existsPath at h
  rw [List.any_eq_false] at h
  have h2 := h e he
  simpa [bne] using h2

/-- Helper for C5: `undo` on a history headed by a `New` record whose
target exists as a non-directory pops the record, removes the target
and finishes with a refresh. -/
theorem undo_new_head (w : Fs) (s : FileSys) (t : Path) (rest : List OpsUnit)
    (hh : s.ops_history = OpsUnit.mk Operation.New [] t :: rest)
    (hx : existsPath w t = true) (hd : isDirPath w t = false) :
    undo w s = finishUndo (remove_file w t) { s with ops_history := rest } := by
  simp [undo, hh, hx, hd]

/-- C5: immediately after a successful `new_file "x" false`, `undo`
removes the created file (its target no longer exists), restores the
filesystem to exactly its pre-create value, and — when the in-memory
listing was in sync with the filesystem — the resulting directory
listing equals the pre-create listing, with the current directory
unchanged. -/
theorem undo_after_new_file (w : Fs) (s : FileSys) (t : Path)
    (ht : new_file_target s "x".data = some t)
    (hex : existsPath w t = false)
    (hsync : s.files = refreshFiles w s.current_dir) :
    ∃ w₁ s₁, new_file w s "x".data false = some (w₁, s₁) ∧
      (undo w₁ s₁).1 = w ∧
      existsPath (undo w₁ s₁).1 t = false ∧
      (undo w₁ s₁).2.current_dir = s.current_dir ∧
      (undo w₁ s₁).2.files = s.files := by
  have hval : validate_filename "x".data = true := by decide
  have h1 : new_file w s "x".data false =
      some (FsEntry.mk t false 0 :: w,
        FileSys.refresh (FsEntry.mk t false 0 :: w)
          { s with
            status_info := "File Created: ".data ++ "x".data,
            ops_history := push_history s.ops_history (OpsUnit.mk Operation.New [] t),
            status_flag := StatusFlag.Others }) := by
    simp [new_file, hval, ht, hex]
  have h3 : remove_file (FsEntry.mk t false 0 :: w) t = w := by
    rw [remove_file, List.filter_cons_of_neg (by simp)]
    exact remove_file_of_not_exists w t hex
  refine ⟨_, _, h1, ?_, ?_, ?_, ?_⟩ <;>
    rw [undo_new_head _ _ t
      (if s.ops_history.length = MAX_HISTORY_SIZE then s.ops_history.dropLast
       else s.ops_history) rfl (by simp [existsPath]) (by simp [isDirPath]), h3]
  · rfl
  · exact hex
  · rfl
  · exact hsync.symm

/-- C5 witness: create `x` at the empty root and undo it. -/
theorem undo_after_new_file_witness :
    new_file_target baseFS "x".data = some ["x".data] ∧
    existsPath [] ["x".data] = false ∧
    baseFS.files = refreshFiles [] baseFS.current_dir ∧
    (∃ w₁ s₁, new_file [] baseFS "x".data false = some (w₁, s₁) ∧
      (undo w₁ s₁).1 = [] ∧
      existsPath (undo w₁ s₁).1 ["x".data] = false ∧
      (undo w₁ s₁).2.current_dir = baseFS.current_dir ∧
      (undo w₁ s₁).2.files = baseFS.files) :=
  ⟨by decide, by decide, by decide,
    undo_after_new_file [] baseFS ["x".data] (by decide) (by decide) (by decide)⟩

/-- C3 counterexample: in `ConfirmDelete` with buffer `x` (neither
affirmative nor negative), submitting changes nothing — in particular
the state machine does not return to `Normal`, it stays in
`ConfirmDelete`. -/
theorem submit_confirm_delete_cex :
    aCexApp.input_context = InputContext.ConfirmDelete ∧
    submit_input [] aCexApp = some ([], aCexApp) ∧
    (submit_input [] aCexApp).map (fun p => p.2.input_context) ≠
      some InputContext.None := by decide

/-- C3 (amended): submitting `Enter` in `ConfirmDelete` triggers
`delete_selected` exactly when the trimmed buffer is `y` or `Y`; a
trimmed buffer of `n` or `N` cancels and returns to `Normal` without
deleting; every other buffer (including empty) performs no deletion and
leaves the whole application state — including the `ConfirmDelete`
input state — unchanged, rather than returning to `Normal`. -/
theorem submit_confirm_delete_spec (w : Fs) (a : App)
    (h : a.input_context = InputContext.ConfirmDelete) :
    ((strTrim a.input_buffer = "y".data ∨ strTrim a.input_buffer = "Y".data) →
      submit_input w a = (delete_selected w a.fs).map (fun p =>
        (p.1, exit_input_mode { a with fs := p.2 }))) ∧
    ((strTrim a.input_buffer = "n".data ∨ strTrim a.input_buffer = "N".data) →
      submit_input w a = some (w, exit_input_mode a)) ∧
    (¬(strTrim a.input_buffer = "y".data ∨ strTrim a.input_buffer = "Y".data) →
      ¬(strTrim a.input_buffer = "n".data ∨ strTrim a.input_buffer = "N".data) →
      submit_input w a = some (w, a)) := by
  have hns : ¬(a.input_context = InputContext.Search) := by
    rw [h]; intro hh; cases hh
  refine ⟨fun hy => ?_, fun hn => ?_, fun hy hn => ?_⟩
  · simp only [submit_input]
    rw [if_neg hns, if_pos h, if_pos hy]
  · have hy : ¬(strTrim a.input_buffer = "y".data ∨ strTrim a.input_buffer = "Y".data) := by
      rcases hn with hn | hn <;> rw [hn] <;> decide
    simp only [submit_input]
    rw [if_neg hns, if_pos h, if_neg hy, if_pos hn]
  · simp only [submit_input]
    rw [if_neg hns, if_pos h, if_neg hy, if_neg hn]

/-- C3 witness: the amended statement evaluated on a `ConfirmDelete`
submission whose buffer holds `n`. -/
theorem submit_confirm_delete_spec_witness :
    aNoApp.input_context = InputContext.ConfirmDelete ∧
    (strTrim aNoApp.input_buffer = "n".data ∨ strTrim aNoApp.input_buffer = "N".data) ∧
    submit_input [] aNoApp = some ([], exit_input_mode aNoApp) :=
  ⟨by decide, by decide,
    (submit_confirm_delete_spec [] aNoApp (by decide)).2.1 (by decide)⟩

/-- C8 counterexample: entering `Rename` from `Normal` does not leave
the buffer empty — `start_rename` pre-fills it with the cursor entry's
name. -/
theorem start_rename_cex :
    aCursorApp.input_context = InputContext.None ∧
    aCursorApp.input_buffer = [] ∧
    (start_rename aCursorApp).input_context = InputContext.Rename ∧
    (start_rename aCursorApp).input_buffer = "a.txt".data ∧
    (start_rename aCursorApp).input_buffer ≠ [] := by decide

/-- C8 (amended): entering `NewFile`, `NewDir` or `Search` clears the
text-entry buffer; entering `ConfirmDelete` leaves the buffer exactly
as it was (empty in practice, since `Normal` mode keeps it empty);
entering `Rename` pre-fills the buffer with the current name of the
entry under the cursor. -/
theorem start_input_buffer_spec (a : App) :
    (start_new_file a).input_buffer = [] ∧
    (start_new_dir a).input_buffer = [] ∧
    (start_search a).input_buffer = [] ∧
    (start_delete_confirm a).input_buffer =
      (if a.fs.selected_index.isSome then a.input_buffer else []) ∧
    (∀ i b f, get_cursor_file_info a = some (i, b) →
      a.fs.files.get? i = some f →
      (start_rename a).input_buffer = f.name) := by
  refine ⟨rfl, rfl, rfl, ?_, ?_⟩
  · unfold start_delete_confirm
    by_cases hs : a.fs.selected_index.isSome
    · rw [if_pos hs, if_pos hs]
    · rw [if_neg hs, if_neg hs]
      rfl
  · intro i b f h1 h2
    rw [List.get?_eq_getElem?] at h2
    simp [start_rename, h1, h2]

/-- C8 witness: the amended statement evaluated with the cursor on
`a.txt`. -/
theorem start_input_buffer_spec_witness :
    get_cursor_file_info aCursorApp = some (0, false) ∧
    aCursorApp.fs.files.get? 0 = some (FileInfo.mk "a.txt".data ["a.txt".data] 0 false) ∧
    (start_new_file aCursorApp).input_buffer = [] ∧
    (start_delete_confirm aCursorApp).input_buffer =
      (if aCursorApp.fs.selected_index.isSome then aCursorApp.input_buffer else []) ∧
    (start_rename aCursorApp).input_buffer =
      (FileInfo.mk "a.txt".data ["a.txt".data] 0 false).name :=
  ⟨by decide, by decide,
    (start_input_buffer_spec aCursorApp).1,
    (start_input_buffer_spec aCursorApp).2.2.2.1,
    (start_input_buffer_spec aCursorApp).2.2.2.2 0 false
      (FileInfo.mk "a.txt".data ["a.txt".data] 0 false) (by decide) (by decide)⟩

end Npns
